import Mathlib

/-!
# Verification of the cloudflare-kit HTTP routing/dispatch core

This file gives a shallow embedding, in Lean 4, of the routing and dispatch
engine of the cloudflare-kit repository (`src/core/app.ts` together with the
CORS middleware of `src/core/middleware.ts`), and proves or refutes the frozen
claims about it.

Conventions of the embedding:

* JavaScript strings are modelled by `String` / `List Char` (ASCII paths).
* A JavaScript `RegExp` compiled from a route template is kept as its source
  string, exactly as `parseRoutePattern` builds it; `regexExecI` is a model of
  `RegExp.prototype.exec` with the `"i"` flag for the anchored pattern
  dialect reachable from `parseRoutePattern` (literal characters, backslash
  escapes, capturing and non-capturing groups, character classes, `.` and the
  `*`, `+`, `?` quantifiers, anchored as `^...$`).
* The WHATWG `Headers` object is modelled as an ordered list of
  name/value pairs with case-insensitive names (`headersSet` / `headersGet`).
* `Response` is modelled by its status, status text, header list and body
  string; `JSON.stringify` at the three fixed body shapes produced by the
  dispatcher is modelled by explicit string concatenation (the serialized
  values in all claims need no JSON escaping).
* Mutation of `context.state` is made explicit: a middleware receives the
  context and returns (inside `Except`, which models `throw`) an optional
  short-circuit response together with the new state; a handler returns a
  response together with the new state.  `crypto.randomUUID()` is modelled by
  a string argument threaded into the dispatcher.
-/

/-- Case-insensitive character comparison, modelling the `"i"` regex flag
(ASCII folding). -/
def ciEq (a b : Char) : Bool :=
  a.toLower == b.toLower

/-- Case-insensitive string comparison for header names (ASCII folding,
kept kernel-reducible by folding character-wise). -/
def ciEqStr (a b : String) : Bool :=
  a.data.map Char.toLower == b.data.map Char.toLower

/-- Model of `method.toUpperCase()` (ASCII). -/
def jsToUpper (s : String) : String :=
  String.mk (s.data.map Char.toUpper)

/-- `list.join(sep)` for strings, kept kernel-reducible. -/
def joinSep (sep : String) : List String → String
  | [] => ""
  | [x] => x
  | x :: xs => x ++ sep ++ joinSep sep xs

/-- Header list: ordered name/value pairs, names compared case-insensitively. -/
abbrev HeaderList := List (String × String)

/-- Model of `Headers.prototype.set`: overwrite the value of the first
name-matching entry in place (dropping later duplicates), else append. -/
def headersSet : HeaderList → String → String → HeaderList
  | [], k, v => [(k, v)]
  | p :: rest, k, v =>
    if ciEqStr p.1 k then (p.1, v) :: rest.filter (fun q => !(ciEqStr q.1 k))
    else p :: headersSet rest k v

/-- Model of `Headers.prototype.get`: value of the first name-matching entry. -/
def headersGet (hs : HeaderList) (k : String) : Option String :=
  (hs.find? (fun p => ciEqStr p.1 k)).map Prod.snd

/-- Model of a fetch-API `Response`, with the body as a string. -/
structure Response where
  status : Nat := 200
  statusText : String := ""
  headers : HeaderList := []
  body : String := ""
deriving DecidableEq, Repr

/-- Model of a parsed `URL`: the pathname and the query pairs in order. -/
structure URLModel where
  pathname : String
  searchParams : List (String × String) := []
deriving DecidableEq, Repr

/-- Model of an inbound `Request`; `request.url` is kept already parsed, so
`new URL(request.url)` in the dispatcher is the `url` field. -/
structure Request where
  method : String
  url : URLModel
deriving DecidableEq, Repr

/-- Model of the request-scoped `context.state` bag: the `corsHeaders` key
(the only one the dispatcher itself reads) is explicit, every other key is
kept in an opaque association list `other`. -/
structure CtxState where
  corsHeaders : Option HeaderList := none
  other : List (String × String) := []
deriving DecidableEq, Repr

/-- `AppOptions` from `src/core/types.ts`: six optional opaque service
fields, nothing else (in particular no error hook). -/
structure AppOptions where
  database : Option Unit := none
  cache : Option Unit := none
  storage : Option Unit := none
  queue : Option Unit := none
  logger : Option Unit := none
  auth : Option Unit := none
deriving DecidableEq, Repr

/-- The `RouterContext` built once per request (`env` and `executionContext`
are opaque to the router and modelled by `Unit`). -/
structure RouterContext where
  request : Request
  url : URLModel
  env : Unit := ()
  executionContext : Unit := ()
  state : CtxState := {}
  params : List (String × String) := []
  query : List (String × String) := []
  options : AppOptions := {}

/-- A middleware: receives the context, may throw (`Except.error`), may
short-circuit (`some response`), and returns the updated `context.state`. -/
abbrev Middleware := RouterContext → Except String (Option Response × CtxState)

/-- A route handler: receives the context, may throw, returns a response and
the updated `context.state`. -/
abbrev Handler := RouterContext → Except String (Response × CtxState)

/-! ## The JavaScript regex model

`parseRoutePattern` produces an anchored pattern string and hands it to
`new RegExp(patternString, "i")`.  `regexExecI` below parses that string into
a small AST and runs a greedy backtracking matcher with capture groups,
case-insensitively, exactly for the anchored `^...$` shape the route
compiler emits. -/

/-- AST of the regex dialect reachable from `parseRoutePattern` output. -/
inductive RTerm where
  | lit (c : Char)
  | anyc
  | cls (neg : Bool) (chars : List Char)
  | grp (capturing : Bool) (ts : List RTerm)
  | starT (t : RTerm)
  | plusT (t : RTerm)
  | optT (t : RTerm)
deriving Repr

/-- Parse the member list of a character class, up to the closing bracket. -/
def parseClsChars : List Char → Option (List Char × List Char)
  | [] => none
  | ']' :: r => some ([], r)
  | '\\' :: c :: r =>
    match parseClsChars r with
    | some (cs, rest) => some (c :: cs, rest)
    | none => none
  | c :: r =>
    match parseClsChars r with
    | some (cs, rest) => some (c :: cs, rest)
    | none => none

/-- Recursive-descent parser for a regex term sequence.  Consumes input until
the end or an unmatched closing parenthesis (which is left in the remainder
for the caller).  `f` is structural fuel; the top-level wrapper passes enough
for any input. -/
def parseSeq : Nat → List Char → Option (List RTerm × List Char)
  | 0, _ => none
  | _, [] => some ([], [])
  | _ + 1, ')' :: rest => some ([], ')' :: rest)
  | f + 1, s =>
    let atom : Option (RTerm × List Char) :=
      match s with
      | '\\' :: c :: r => some (.lit c, r)
      | ['\\'] => none
      | '(' :: '?' :: ':' :: r =>
        match parseSeq f r with
        | some (ts, ')' :: r2) => some (.grp false ts, r2)
        | _ => none
      | '(' :: r =>
        match parseSeq f r with
        | some (ts, ')' :: r2) => some (.grp true ts, r2)
        | _ => none
      | '[' :: '^' :: r =>
        match parseClsChars r with
        | some (cs, rest) => some (.cls true cs, rest)
        | none => none
      | '[' :: r =>
        match parseClsChars r with
        | some (cs, rest) => some (.cls false cs, rest)
        | none => none
      | '.' :: r => some (.anyc, r)
      | '*' :: _ => none
      | '+' :: _ => none
      | '?' :: _ => none
      | '|' :: _ => none
      | c :: r => some (.lit c, r)
      | [] => none
    match atom with
    | none => none
    | some (t, rest) =>
      let quant : RTerm × List Char :=
        match rest with
        | '*' :: r2 => (.starT t, r2)
        | '+' :: r2 => (.plusT t, r2)
        | '?' :: r2 => (.optT t, r2)
        | _ => (t, rest)
      match parseSeq f quant.2 with
      | some (ts, rest2) => some (quant.1 :: ts, rest2)
      | none => none

/-- Capture list of a match in progress (group values in completion order;
the reachable patterns never nest capturing groups). -/
abbrev Caps := List (Option String)

/-- JS line terminators, which `.` does not match. -/
def lineTerminators : List Char := ['\n', '\r', '\u2028', '\u2029']

mutual

/-- All ways one regex term can consume an input head, greedy first:
results are remaining-input/captures pairs in backtracking priority order. -/
def matchTerm : Nat → RTerm → List Char → Caps → List (List Char × Caps)
  | 0, _, _, _ => []
  | f + 1, t, s, caps =>
    match t with
    | .lit c =>
      match s with
      | [] => []
      | c2 :: rest => if ciEq c c2 then [(rest, caps)] else []
    | .anyc =>
      match s with
      | [] => []
      | c2 :: rest => if lineTerminators.contains c2 then [] else [(rest, caps)]
    | .cls neg chars =>
      match s with
      | [] => []
      | c2 :: rest =>
        let member := chars.any (fun d => ciEq d c2)
        if (if neg then !member else member) then [(rest, caps)] else []
    | .grp capturing ts =>
      (matchSeqL f ts s caps).map (fun p =>
        (p.1, if capturing then
                p.2 ++ [some (String.mk (s.take (s.length - p.1.length)))]
              else p.2))
    | .starT t1 => matchStar f t1 s caps
    | .plusT t1 =>
      (matchTerm f t1 s caps).flatMap (fun p => matchStar f t1 p.1 p.2)
    | .optT t1 => matchTerm f t1 s caps ++ [(s, caps)]

/-- Zero or more greedy repetitions of a term; each repetition must consume
input (matching JS engines, which stop a quantifier on an empty match). -/
def matchStar : Nat → RTerm → List Char → Caps → List (List Char × Caps)
  | 0, _, _, _ => []
  | f + 1, t, s, caps =>
    ((matchTerm f t s caps).flatMap (fun p =>
      if p.1.length < s.length then matchStar f t p.1 p.2 else [])) ++ [(s, caps)]

/-- Match a sequence of regex terms against an input, greedy first. -/
def matchSeqL : Nat → List RTerm → List Char → Caps → List (List Char × Caps)
  | 0, _, _, _ => []
  | _ + 1, [], s, caps => [(s, caps)]
  | f + 1, t :: ts, s, caps =>
    (matchTerm f t s caps).flatMap (fun p => matchSeqL f ts p.1 p.2)

end

/-- Strip the `^...$` anchors the route compiler always emits. -/
def stripAnchors : List Char → Option (List Char)
  | '^' :: rest =>
    match rest.reverse with
    | '$' :: revBody => some revBody.reverse
    | _ => none
  | _ => none

/-- Model of `new RegExp(pattern, "i")` followed by `pathname.match(...)`:
`some [full, g1, g2, ...]` on success (`none` entries for unmatched groups,
mirroring `undefined`), `none` when the input does not match. -/
def regexExecI (pattern input : String) : Option (List (Option String)) :=
  match stripAnchors pattern.data with
  | none => none
  | some body =>
    match parseSeq (4 * (body.length + 2)) body with
    | some (terms, []) =>
      let fuel := 8 * (pattern.length + input.length + 8)
      match (matchSeqL fuel terms input.data []).find? (fun p => p.1.isEmpty) with
      | some p => some (some input :: p.2)
      | none => none
    | _ => none

/-! ## The route pattern compiler (`parseRoutePattern`) -/

/-- The characters escaped by
`path.replace(/[.+^$\x7b\x7d()|[\]\\]/g, "\\$&")` in the source. -/
def regexSpecialChars : List Char :=
  ['.', '+', '^', '$', '\x7b', '\x7d', '(', ')', '|', '[', ']', '\\']

/-- The escaping pass of `parseRoutePattern`: put a backslash before every
regex special character.  The colon is not in the escaped set. -/
def escapeSpecial (s : List Char) : List Char :=
  s.foldr (fun c acc =>
    (if regexSpecialChars.contains c then ['\\', c] else [c]) ++ acc) []

/-- `[a-zA-Z_]` (ASCII, as in the source pattern). -/
def isIdentStart (c : Char) : Bool :=
  c.isAlpha || c == '_'

/-- `[a-zA-Z0-9_]` (ASCII, as in the source pattern). -/
def isIdentChar (c : Char) : Bool :=
  c.isAlphanum || c == '_'

/-- The parameter pass of `parseRoutePattern`, modelling
`.replace(/\\:([a-zA-Z_][a-zA-Z0-9_]*)/g, ...)`: a left-to-right,
non-overlapping scan that replaces every occurrence of a literal backslash,
a colon and a greedy identifier by `([^/]+)`, recording the identifier.
Note the regex literal requires a real backslash character before the colon.
On no match at a position the scan advances one character, as `replace` does.
`f` is structural fuel, sufficient at `length + 1`. -/
def paramReplaceAux : Nat → List Char → List Char × List String
  | 0, s => (s, [])
  | f + 1, s =>
    match s with
    | [] => ([], [])
    | '\\' :: ':' :: c :: rest =>
      if isIdentStart c then
        let ident := rest.takeWhile isIdentChar
        let rest2 := rest.dropWhile isIdentChar
        let r := paramReplaceAux f rest2
        ("([^/]+)".data ++ r.1, String.mk (c :: ident) :: r.2)
      else
        let r := paramReplaceAux f (':' :: c :: rest)
        ('\\' :: r.1, r.2)
    | c :: rest =>
      let r := paramReplaceAux f rest
      (c :: r.1, r.2)

/-- `str.endsWith(suf)`. -/
def strEndsWith (s suf : String) : Bool :=
  decide (suf.data.length ≤ s.data.length) &&
    s.data.drop (s.data.length - suf.data.length) == suf.data

/-- Result of compiling one route template. -/
structure CompiledRoutePattern where
  pattern : String
  paramNames : List String
  isWildcard : Bool
deriving DecidableEq, Repr

/-- `parseRoutePattern` from `src/core/app.ts`: strip a trailing `/*`
(marking the route as wildcard), escape regex specials, run the parameter
replacement, append `(?:/.*)?` for wildcards, and anchor with `^...$`. -/
def parseRoutePattern (path : String) : CompiledRoutePattern :=
  let wild : Bool × String :=
    if strEndsWith path "/*" then (true, String.mk (path.data.take (path.data.length - 2)))
    else (false, path)
  let escaped := escapeSpecial wild.2.data
  let pr := paramReplaceAux (escaped.length + 1) escaped
  let withWild := if wild.1 then pr.1 ++ "(?:/.*)?".data else pr.1
  { pattern := String.mk ('^' :: (withWild ++ ['$']))
    paramNames := pr.2
    isWildcard := wild.1 }

/-! ## Route table and lookup -/

/-- A registered route (`Route` in the source); the compiled `pattern` is
kept as its regex source string, matched via `regexExecI`. -/
structure Route where
  method : String
  path : String
  pattern : String
  paramNames : List String
  handler : Handler
  isWildcard : Bool
  middleware : List Middleware

/-- `addRoute`: compile the template and build the stored route (the
group middleware list is copied by value). -/
def addRoute (method path : String) (handler : Handler)
    (groupMiddleware : List Middleware := []) : Route :=
  let c := parseRoutePattern path
  { method := jsToUpper method
    path := path
    pattern := c.pattern
    paramNames := c.paramNames
    handler := handler
    isWildcard := c.isWildcard
    middleware := groupMiddleware }

/-- A successful lookup: the route plus the extracted params (a JS object
modelled as an insertion-ordered association list). -/
structure RouteMatch where
  route : Route
  params : List (String × String)

/-- `match[i]` on a JS match array: `undefined` out of bounds or for an
unmatched group. -/
def jsIndex (m : List (Option String)) (i : Nat) : Option String :=
  (m.get? i).bind id

/-- `s.replace(/^\//, "")`: strip one leading slash. -/
def stripLeadSlash (s : String) : String :=
  match s.data with
  | '/' :: rest => String.mk rest
  | _ => s

/-- The pattern-scan fallback of `findRoute`: first registered route with
matching method whose compiled pattern matches the pathname; params are the
parameter names zipped with the capture groups (`match[i+1] || ""`), and for
wildcard routes the next capture, if a nonempty string, becomes `params["*"]`
with its leading slash stripped. -/
def findRouteLoop : List Route → String → String → Option RouteMatch
  | [], _, _ => none
  | r :: rest, upperMethod, pathname =>
    if r.method == upperMethod then
      match regexExecI r.pattern pathname with
      | some m =>
        let base := r.paramNames.enum.map (fun p => (p.2, (jsIndex m (p.1 + 1)).getD ""))
        let params :=
          match jsIndex m (r.paramNames.length + 1) with
          | some s => if r.isWildcard && s != "" then base ++ [("*", stripLeadSlash s)] else base
          | none => base
        some ⟨r, params⟩
      | none => findRouteLoop rest upperMethod pathname
    else findRouteLoop rest upperMethod pathname

/-- `findRoute` from the source: exact literal (method, path) fast path
first, then the registration-order pattern scan. -/
def findRoute (routes : List Route) (method pathname : String) : Option RouteMatch :=
  let upperMethod := jsToUpper method
  match routes.find? (fun r => r.method == upperMethod && r.path == pathname) with
  | some r => some ⟨r, []⟩
  | none => findRouteLoop routes upperMethod pathname

/-- `[...new Set(l)]`: de-duplicate keeping first occurrences in order. -/
def dedupPreserveFirst (l : List String) : List String :=
  l.foldl (fun acc m => if acc.contains m then acc else acc ++ [m]) []

/-- `findPathWithoutMethod`: the de-duplicated methods of all routes whose
literal path equals the pathname or whose pattern matches it. -/
def findPathWithoutMethod (routes : List Route) (pathname : String) : List String :=
  dedupPreserveFirst
    (routes.foldl (fun acc r =>
      if r.path == pathname then acc ++ [r.method]
      else
        match regexExecI r.pattern pathname with
        | some _ => acc ++ [r.method]
        | none => acc) [])

/-! ## Middleware execution and response post-processing -/

/-- `executeMiddlewares`: run the chain in order, threading the mutable
state; the first middleware returning a `Response` short-circuits, and a
throw aborts the chain. -/
def executeMiddlewares : List Middleware → RouterContext →
    Except String (Option Response × CtxState)
  | [], ctx => .ok (none, ctx.state)
  | mw :: rest, ctx =>
    match mw ctx with
    | .error e => .error e
    | .ok (some r, st) => .ok (some r, st)
    | .ok (none, st) => executeMiddlewares rest { ctx with state := st }

/-- `applyCorsHeaders`: if `context.state.corsHeaders` is set, rebuild the
response with each CORS header `set` (overwriting) on a copy of its
headers; otherwise return the response unchanged. -/
def applyCorsHeaders (response : Response) (corsHeaders : Option HeaderList) : Response :=
  match corsHeaders with
  | none => response
  | some cors =>
    { status := response.status
      statusText := response.statusText
      headers := cors.foldl (fun hs kv => headersSet hs kv.1 kv.2) response.headers
      body := response.body }

/-! ## The fixed responses produced by the dispatcher -/

/-- Body of the 405 response:
`JSON.stringify({ error: "Method Not Allowed", allowed })`. -/
def methodNotAllowedBody (allowed : List String) : String :=
  "\x7b\"error\":\"Method Not Allowed\",\"allowed\":[" ++
    joinSep "," (allowed.map (fun m => "\"" ++ m ++ "\"")) ++ "]\x7d"

/-- The 405 response, with the `Allow` header joining the same list. -/
def methodNotAllowedResponse (allowed : List String) : Response :=
  { status := 405
    statusText := ""
    headers := [("Content-Type", "application/json"), ("Allow", joinSep ", " allowed)]
    body := methodNotAllowedBody allowed }

/-- Body of the 404 response:
`JSON.stringify({ error: "Not Found", path, method })`. -/
def notFoundBody (path method : String) : String :=
  "\x7b\"error\":\"Not Found\",\"path\":\"" ++ path ++ "\",\"method\":\"" ++ method ++ "\"\x7d"

/-- The 404 response (note: built without any CORS post-processing). -/
def notFoundResponse (path method : String) : Response :=
  { status := 404
    statusText := ""
    headers := [("Content-Type", "application/json")]
    body := notFoundBody path method }

/-- Body of the catch-all 500 response:
`JSON.stringify({ error: "Internal Server Error", requestId })`. -/
def internalErrorBody (requestId : String) : String :=
  "\x7b\"error\":\"Internal Server Error\",\"requestId\":\"" ++ requestId ++ "\"\x7d"

/-- The catch-all 500 response; `requestId` models `crypto.randomUUID()`. -/
def internalErrorResponse (requestId : String) : Response :=
  { status := 500
    statusText := ""
    headers := [("Content-Type", "application/json")]
    body := internalErrorBody requestId }

/-! ## The dispatcher (`app.fetch`) -/

/-- The application closure built by `createApp`: registration-order global
middleware, registration-order route table, construction options. -/
structure AppModel where
  middlewares : List Middleware
  routes : List Route
  options : AppOptions := {}

/-- `parseQueryString`: fold the query pairs into a JS object
(assignment to an existing key overwrites in place, last value wins). -/
def objAssign (l : List (String × String)) (k v : String) : List (String × String) :=
  if l.any (fun p => p.1 == k) then
    l.map (fun p => if p.1 == k then (p.1, v) else p)
  else l ++ [(k, v)]

/-- `parseQueryString(url)` from the source. -/
def parseQueryString (url : URLModel) : List (String × String) :=
  url.searchParams.foldl (fun acc kv => objAssign acc kv.1 kv.2) []

/-- The router context built by `fetch` after the 405 early return:
fresh empty state, matched params (or `{}`), parsed query, and the
construction options spread into the context. -/
def buildContext (app : AppModel) (req : Request) (matc : Option RouteMatch) : RouterContext :=
  { request := req
    url := req.url
    env := ()
    executionContext := ()
    state := {}
    params := match matc with | some m => m.params | none => []
    query := parseQueryString req.url
    options := app.options }

/-- The `try` block of `fetch`: global middleware (short-circuit applies
CORS post-processing), then route middleware, then the handler (both with
CORS post-processing), else the 404 fallback (no post-processing). -/
def runPipeline (app : AppModel) (context : RouterContext) (matc : Option RouteMatch) :
    Except String Response :=
  match executeMiddlewares app.middlewares context with
  | .error e => .error e
  | .ok (some r, st) => .ok (applyCorsHeaders r st.corsHeaders)
  | .ok (none, st) =>
    match matc with
    | some m =>
      match executeMiddlewares m.route.middleware { context with state := st } with
      | .error e => .error e
      | .ok (some r2, st2) => .ok (applyCorsHeaders r2 st2.corsHeaders)
      | .ok (none, st2) =>
        match m.route.handler { context with state := st2 } with
        | .error e => .error e
        | .ok (r3, st3) => .ok (applyCorsHeaders r3 st3.corsHeaders)
    | none => .ok (notFoundResponse context.url.pathname context.request.method)

/-- Context construction plus the `try/catch`: a throw anywhere in the
pipeline is caught at the boundary and converted to the opaque 500. -/
def dispatchMain (app : AppModel) (req : Request) (matc : Option RouteMatch)
    (uuid : String) : Response :=
  let context := buildContext app req matc
  match runPipeline app context matc with
  | .ok r => r
  | .error _ => internalErrorResponse uuid

/-- `app.fetch(request, env, executionContext)`: route lookup, then the 405
early return (before the context is built and before any middleware), then
the middleware/handler pipeline.  `uuid` models the `crypto.randomUUID()`
value used if a 500 is produced. -/
def fetchDispatch (app : AppModel) (req : Request) (uuid : String) : Response :=
  let pathname := req.url.pathname
  match findRoute app.routes req.method pathname with
  | none =>
    let availableMethods := findPathWithoutMethod app.routes pathname
    if availableMethods.length > 0 then methodNotAllowedResponse availableMethods
    else dispatchMain app req none uuid
  | some m => dispatchMain app req (some m) uuid

/-! ## The CORS middleware (`src/core/middleware.ts`) -/

/-- Options of `corsMiddleware`. -/
structure CorsOptions where
  origin : Option String := none
  methods : Option String := none
  allowHeaders : Option String := none
  credentials : Option Bool := none

/-- JS `x || d` for an optional string (the empty string is falsy). -/
def jsOrDefault (o : Option String) (d : String) : String :=
  match o with
  | none => d
  | some s => if s == "" then d else s

/-- `corsMiddleware(options)`: answer `OPTIONS` preflights directly with 204,
otherwise store the CORS headers in `context.state.corsHeaders` for the app
to apply and continue the chain. -/
def corsMiddleware (options : CorsOptions) : Middleware := fun context =>
  let origin := jsOrDefault options.origin "*"
  let methods := jsOrDefault options.methods "GET, POST, PUT, DELETE, PATCH, OPTIONS"
  let allowHeaders := jsOrDefault options.allowHeaders "Content-Type, Authorization"
  let credentials := options.credentials.getD false
  if context.request.method == "OPTIONS" then
    .ok (some { status := 204
                statusText := ""
                headers := [("Access-Control-Allow-Origin", origin),
                            ("Access-Control-Allow-Methods", methods),
                            ("Access-Control-Allow-Headers", allowHeaders)] ++
                  (if credentials then [("Access-Control-Allow-Credentials", "true")] else [])
                body := "" },
          context.state)
  else
    .ok (none,
      { context.state with
        corsHeaders := some ([("Access-Control-Allow-Origin", origin)] ++
          (if credentials then [("Access-Control-Allow-Credentials", "true")] else [])) })


/-! ## Claim fixtures and theorems -/

/-- A handler that throws the given error value. -/
def throwingHandler (e : String) : Handler := fun _ => .error e

/-- A trivial concrete handler used in witnesses. -/
def okHandler : Handler := fun ctx => .ok ({ status := 200, body := "ok" }, ctx.state)

/-- The route of claim C1: `GET /posts/:slug/comments/:commentId`. -/
def c1route (h : Handler) : Route :=
  addRoute "GET" "/posts/:slug/comments/:commentId" h

/-- App with only the C1 route. -/
def c1app (h : Handler) : AppModel :=
  { middlewares := [], routes := [c1route h] }

/-- The C1 request: `GET /posts/hello-world/comments/42`. -/
def c1req : Request :=
  { method := "GET", url := { pathname := "/posts/hello-world/comments/42" } }

set_option maxHeartbeats 2000000 in
/-- C1: the claim fails on the code.  The parameter pass of
`parseRoutePattern` replaces only occurrences of a literal backslash
followed by a colon, and the escaping pass never escapes a colon, so the
template `/posts/:slug/comments/:commentId` compiles to the literal pattern
`^/posts/:slug/comments/:commentId$` with no parameter names and no capture
groups.  Consequently `findRoute` does not match
`/posts/hello-world/comments/42` at all, and dispatch returns the 404
fallback instead of invoking the handler with
`params = (slug, hello-world), (commentId, 42)`. -/
theorem claim_C1_param_extraction (h : Handler) (u : String) :
    parseRoutePattern "/posts/:slug/comments/:commentId" =
      { pattern := "^/posts/:slug/comments/:commentId$", paramNames := [], isWildcard := false } ∧
    findRoute [c1route h] "GET" "/posts/hello-world/comments/42" = none ∧
    fetchDispatch (c1app h) c1req u =
      notFoundResponse "/posts/hello-world/comments/42" "GET" :=
  ⟨by decide, rfl, rfl⟩

/-- The route of claim C2: `GET /static/*`. -/
def c2route (h : Handler) : Route :=
  addRoute "GET" "/static/*" h

set_option maxHeartbeats 2000000 in
/-- C2: the claim fails on the code.  The wildcard suffix compiles to the
non-capturing group `(?:/.*)?`, so the match array has no entry at index
`paramNames.length + 1` and the wildcard branch of `findRoute` never fires:
the route matches `/static/css/app.css`, but the returned params are empty —
there is no `*` key at all, let alone one equal to `css/app.css`. -/
theorem claim_C2_wildcard_capture :
    parseRoutePattern "/static/*" =
      { pattern := "^/static(?:/.*)?$", paramNames := [], isWildcard := true } ∧
    regexExecI "^/static(?:/.*)?$" "/static/css/app.css" =
      some [some "/static/css/app.css"] ∧
    jsIndex [some "/static/css/app.css"] 1 = none ∧
    (findRoute [c2route okHandler] "GET" "/static/css/app.css").map
        (fun rm => (rm.route.method, rm.route.path, rm.route.isWildcard, rm.params)) =
      some ("GET", "/static/*", true, []) :=
  ⟨by decide, by decide, by decide, by decide⟩

/-- The parameterized route of claim C3. -/
def c3param (h : Handler) : Route :=
  addRoute "GET" "/users/:id" h

/-- The literal route of claim C3. -/
def c3lit (h : Handler) : Route :=
  addRoute "GET" "/users/me" h

set_option maxHeartbeats 1000000 in
/-- C3: for both registration orders of `/users/:id` and `/users/me`,
`findRoute` on `GET /users/me` returns the literal route with empty params:
the exact-match fast path scans the whole table for a literal (method, path)
equality before any pattern is tried, so the parameterized route can never
capture `id = me` for this request. -/
theorem claim_C3_literal_precedence (h1 h2 : Handler) :
    findRoute [c3param h1, c3lit h2] "GET" "/users/me" = some ⟨c3lit h2, []⟩ ∧
    findRoute [c3lit h2, c3param h1] "GET" "/users/me" = some ⟨c3lit h2, []⟩ :=
  ⟨rfl, rfl⟩

/-- The only route of claim C4: `GET /widgets`. -/
def c4route (h : Handler) : Route :=
  addRoute "GET" "/widgets" h

/-- App with only a GET route at `/widgets` and no middleware. -/
def c4app (h : Handler) : AppModel :=
  { middlewares := [], routes := [c4route h] }

/-- `POST /widgets`. -/
def postWidgetsReq : Request :=
  { method := "POST", url := { pathname := "/widgets" } }

/-- `GET /unknown`. -/
def getUnknownReq : Request :=
  { method := "GET", url := { pathname := "/unknown" } }

/-- C4: distinction of 405 and 404.  (1) Whenever no route matches the
(method, pathname) but `findPathWithoutMethod` finds methods registered at
the pathname, dispatch returns the 405 response built from that
de-duplicated method list (JSON body listing `allowed`, and the `Allow`
header joining the same list).  (2) When additionally no method at all is
registered at the pathname (and there is no global middleware that could
short-circuit first), dispatch returns the 404 response naming the
requested path and method. -/
theorem claim_C4_405_vs_404 :
    (∀ (app : AppModel) (req : Request) (u : String),
      findRoute app.routes req.method req.url.pathname = none →
      findPathWithoutMethod app.routes req.url.pathname ≠ [] →
      fetchDispatch app req u =
        methodNotAllowedResponse (findPathWithoutMethod app.routes req.url.pathname)) ∧
    (∀ (app : AppModel) (req : Request) (u : String),
      app.middlewares = [] →
      findRoute app.routes req.method req.url.pathname = none →
      findPathWithoutMethod app.routes req.url.pathname = [] →
      fetchDispatch app req u = notFoundResponse req.url.pathname req.method) := by
  constructor
  · intro app req u h1 h2
    simp only [fetchDispatch, h1]
    cases hl : findPathWithoutMethod app.routes req.url.pathname with
    | nil => exact absurd hl h2
    | cons a t => simp [hl]
  · intro app req u hmw h1 h2
    simp only [fetchDispatch, h1, h2, List.length_nil, gt_iff_lt, Nat.lt_irrefl, if_false]
    simp only [dispatchMain, runPipeline, hmw, executeMiddlewares, buildContext]

set_option maxHeartbeats 1000000 in
/-- Witness for C4: with only `GET /widgets` registered, `POST /widgets`
yields the 405 with `allowed = [GET]` and header `Allow: GET`, while
`GET /unknown` (no route at that path for any method) yields the 404. -/
theorem claim_C4_405_vs_404_witness :
    fetchDispatch (c4app okHandler) postWidgetsReq "uuid-0" =
      methodNotAllowedResponse ["GET"] ∧
    headersGet (methodNotAllowedResponse ["GET"]).headers "Allow" = some "GET" ∧
    fetchDispatch { middlewares := [], routes := [] } getUnknownReq "uuid-0" =
      notFoundResponse "/unknown" "GET" := by
  refine ⟨?_, by decide, ?_⟩
  · exact (claim_C4_405_vs_404.1 (c4app okHandler) postWidgetsReq "uuid-0"
      (Option.isNone_iff_eq_none.mp (by decide)) (by decide)).trans (by decide)
  · exact claim_C4_405_vs_404.2 { middlewares := [], routes := [] } getUnknownReq "uuid-0"
      rfl rfl rfl

/-- The route of claim C5: `GET /hello` with route middleware `[C]`. -/
def c5route (C : Middleware) (H : Handler) : Route :=
  addRoute "GET" "/hello" H [C]

/-- The C5 app: global middleware `[A, B]`, one route with middleware `[C]`. -/
def c5app (A B C : Middleware) (H : Handler) : AppModel :=
  { middlewares := [A, B], routes := [c5route C H] }

/-- `GET /hello`. -/
def c5req : Request :=
  { method := "GET", url := { pathname := "/hello" } }

/-- C5: middleware short-circuit.  With global middleware `[A, B]` where `A`
continues (returning no response, state update `mutA`) and `B` returns the
response `rB` (state update `mutB`), the dispatcher returns exactly `B`
after CORS post-processing with the state as mutated by `A` then `B`; the
route middleware `C` and the handler `H` are universally quantified and
absent from the result — they never execute.  That `A` runs before `B` is
visible in the state threading: `B` receives the state `mutA` produced. -/
theorem claim_C5_short_circuit (A B C : Middleware) (H : Handler)
    (mutA mutB : CtxState → CtxState) (rB : Response) (u : String)
    (hA : ∀ ctx, A ctx = .ok (none, mutA ctx.state))
    (hB : ∀ ctx, B ctx = .ok (some rB, mutB ctx.state)) :
    fetchDispatch (c5app A B C H) c5req u =
      applyCorsHeaders rB (mutB (mutA {})).corsHeaders := by
  have hfr : findRoute (c5app A B C H).routes c5req.method c5req.url.pathname =
      some ⟨c5route C H, []⟩ := rfl
  simp only [fetchDispatch, hfr, dispatchMain, runPipeline, executeMiddlewares, hA, hB]
  simp [buildContext]

/-- The concrete short-circuit response for the C5 witness. -/
def c5respB : Response := { status := 201, statusText := "", headers := [], body := "from-B" }

/-- Witness middleware A: continues, logging into the state bag. -/
def c5wA : Middleware := fun ctx =>
  .ok (none, { ctx.state with other := ctx.state.other ++ [("ran", "A")] })

/-- Witness middleware B: short-circuits with `c5respB`. -/
def c5wB : Middleware := fun ctx => .ok (some c5respB, ctx.state)

/-- Witness route middleware C: would short-circuit with a 599 if ever run. -/
def c5wC : Middleware := fun ctx => .ok (some { status := 599 }, ctx.state)

/-- Witness handler. -/
def c5wH : Handler := fun ctx => .ok ({ status := 200, body := "H" }, ctx.state)

/-- Witness for C5 at concrete A, B, C, H: the dispatcher returns exactly
the response of `B` (no CORS state was set, so post-processing is the
identity), and neither `C`'s 599 nor `H`'s response appears. -/
theorem claim_C5_short_circuit_witness :
    fetchDispatch (c5app c5wA c5wB c5wC c5wH) c5req "u0" = c5respB :=
  (claim_C5_short_circuit c5wA c5wB c5wC c5wH
    (fun st => { st with other := st.other ++ [("ran", "A")] }) (fun st => st) c5respB "u0"
    (fun _ => rfl) (fun _ => rfl)).trans rfl

/-- Characters that can occur in a `crypto.randomUUID()` result: lowercase
hex digits and the dash. -/
def isUuidChar (c : Char) : Bool :=
  c.isDigit || ('a' ≤ c && c ≤ 'f') || c == '-'

/-- `pat` occurs as a contiguous substring of `s`. -/
def strOccurs (pat s : String) : Prop :=
  ∃ i, (s.data.drop i).take pat.data.length = pat.data

/-- An occurrence at position `i` fixes every character of the window. -/
theorem occursAt_get {s pat : List Char} {i j : Nat}
    (h : (s.drop i).take pat.length = pat) (hj : j < pat.length) :
    s.get? (i + j) = pat.get? j := by
  have h2 : ((s.drop i).take pat.length).get? j = pat.get? j := by rw [h]
  rwa [List.get?_take hj, List.get?_drop] at h2

/-- The fixed JSON text of the 500 body before the request id. -/
def errBodyPre : List Char :=
  "\x7b\"error\":\"Internal Server Error\",\"requestId\":\"".data

/-- The fixed JSON text of the 500 body after the request id. -/
def errBodyEnd : List Char := "\"\x7d".data

/-- The 500 body decomposes into fixed text around the request id. -/
theorem internalErrorBody_data (u : String) :
    (internalErrorBody u).data = errBodyPre ++ (u.data ++ errBodyEnd) := by
  simp [internalErrorBody, errBodyPre, errBodyEnd, String.data_append]

/-- Every character of the 500 body is a character of the fixed leading
text (at its fixed position), a uuid character, or one of the two trailing
characters. -/
theorem bodyChar_cases {u : String} (hu : ∀ c ∈ u.data, isUuidChar c = true)
    {n : Nat} {c : Char}
    (h : (errBodyPre ++ (u.data ++ errBodyEnd)).get? n = some c) :
    (n < errBodyPre.length ∧ errBodyPre.get? n = some c) ∨
      isUuidChar c = true ∨ c ∈ errBodyEnd := by
  by_cases hn : n < errBodyPre.length
  · exact Or.inl ⟨hn, by rwa [List.get?_append hn] at h⟩
  · rw [List.get?_append_right (Nat.le_of_not_lt hn)] at h
    rcases List.mem_append.mp (List.get?_mem h) with hm | hm
    · exact Or.inr (Or.inl (hu _ hm))
    · exact Or.inr (Or.inr hm)

/-- The fixed leading text of the 500 body contains no `p`. -/
theorem errBodyPre_no_p :
    ∀ k, k < errBodyPre.length → ¬ errBodyPre.get? k = some 'p' := by decide

/-- In the fixed leading text, the only lowercase `s` is followed by `t`. -/
theorem errBodyPre_s_then_t :
    ∀ k, k < errBodyPre.length →
      errBodyPre.get? k = some 's' → errBodyPre.get? (k + 1) = some 't' := by decide

/-- `secret123` never occurs in the 500 body, whatever the request id. -/
theorem no_secret_in_errBody {u : String} (hu : ∀ c ∈ u.data, isUuidChar c = true) :
    ¬ strOccurs "secret123" (internalErrorBody u) := by
  rintro ⟨i, hEq⟩
  rw [internalErrorBody_data] at hEq
  have g0 : (errBodyPre ++ (u.data ++ errBodyEnd)).get? (i + 0) = some 's' :=
    (occursAt_get hEq (by decide)).trans (by decide)
  have g1 : (errBodyPre ++ (u.data ++ errBodyEnd)).get? (i + 1) = some 'e' :=
    (occursAt_get hEq (by decide)).trans (by decide)
  rcases bodyChar_cases hu g0 with ⟨hlt, hP⟩ | hc | hc
  · have ht := errBodyPre_s_then_t i hlt hP
    have hb : i + 1 < errBodyPre.length := by
      rcases Nat.lt_or_ge (i + 1) errBodyPre.length with hx | hx
      · exact hx
      · rw [List.get?_eq_none.mpr hx] at ht; cases ht
    rw [List.get?_append hb, ht] at g1
    cases g1
  · exact absurd hc (by decide)
  · exact absurd hc (by decide)

/-- `db password` never occurs in the 500 body, whatever the request id. -/
theorem no_dbpass_in_errBody {u : String} (hu : ∀ c ∈ u.data, isUuidChar c = true) :
    ¬ strOccurs "db password" (internalErrorBody u) := by
  rintro ⟨i, hEq⟩
  rw [internalErrorBody_data] at hEq
  have g3 : (errBodyPre ++ (u.data ++ errBodyEnd)).get? (i + 3) = some 'p' :=
    (occursAt_get hEq (by decide)).trans (by decide)
  rcases bodyChar_cases hu g3 with ⟨hlt, hP⟩ | hc | hc
  · exact errBodyPre_no_p (i + 3) hlt hP
  · exact absurd hc (by decide)
  · exact absurd hc (by decide)

/-- The C6 app: a single route whose handler throws the given error value. -/
def c6app (e : String) : AppModel :=
  { middlewares := [], routes := [addRoute "GET" "/boom" (throwingHandler e)] }

/-- `GET /boom`. -/
def c6req : Request :=
  { method := "GET", url := { pathname := "/boom" } }

/-- C6: error opacity.  Whatever error value a handler throws, the caught
response is the fixed 500 JSON body carrying only the freshly generated
request id: the body is the same for any two thrown errors, and (for any
request id over the uuid alphabet) it contains neither `secret123` nor
`db password` as a substring. -/
theorem claim_C6_error_opacity (e1 e2 u : String)
    (hu : ∀ c ∈ u.data, isUuidChar c = true) :
    fetchDispatch (c6app e1) c6req u = internalErrorResponse u ∧
    fetchDispatch (c6app e1) c6req u = fetchDispatch (c6app e2) c6req u ∧
    (internalErrorResponse u).status = 500 ∧
    ¬ strOccurs "secret123" (internalErrorResponse u).body ∧
    ¬ strOccurs "db password" (internalErrorResponse u).body :=
  ⟨rfl, rfl, rfl, no_secret_in_errBody hu, no_dbpass_in_errBody hu⟩

/-- A concrete uuid for the C6 witness. -/
def c6uuid : String := "123e4567-e89b-42d3-a456-426614174000"

/-- Witness for C6 at the concrete error of the claim and a concrete uuid. -/
theorem claim_C6_error_opacity_witness :
    fetchDispatch (c6app "db password: secret123") c6req c6uuid =
      internalErrorResponse c6uuid ∧
    ¬ strOccurs "secret123" (internalErrorResponse c6uuid).body ∧
    ¬ strOccurs "db password" (internalErrorResponse c6uuid).body := by
  have h := claim_C6_error_opacity "db password: secret123" "x" c6uuid (by decide)
  exact ⟨h.1, h.2.2.2.1, h.2.2.2.2⟩

/-- After a `set`, `get` of that name yields the value just set. -/
theorem headersGet_headersSet (hs : HeaderList) (k v : String) :
    headersGet (headersSet hs k v) k = some v := by
  induction hs with
  | nil => simp [headersSet, headersGet, List.find?, ciEqStr]
  | cons p rest ih =>
    cases hb : ciEqStr p.1 k with
    | true => simp [headersSet, hb, headersGet, List.find?]
    | false =>
      simp only [headersSet, hb, Bool.false_eq_true, if_false, headersGet,
        List.find?, cond_false] at ih ⊢
      exact ih

/-- CORS options of claims C7 and C8. -/
def goodCors : CorsOptions := { origin := some "https://good.example" }

/-- The C7 route: `GET /data`, handler returning a fixed response. -/
def c7route (resp : Response) : Route :=
  addRoute "GET" "/data" (fun ctx => .ok (resp, ctx.state))

/-- The C7 app: the CORS middleware plus the fixed-response route. -/
def c7app (resp : Response) : AppModel :=
  { middlewares := [corsMiddleware goodCors], routes := [c7route resp] }

/-- `GET /data`. -/
def c7req : Request :=
  { method := "GET", url := { pathname := "/data" } }

/-- C7: CORS post-processing wins.  For an arbitrary handler response
(whatever `Access-Control-Allow-Origin` header it carries), dispatch with
the CORS middleware configured for `https://good.example` returns the
handler response with the stored CORS headers `set` over it, and the final
`Access-Control-Allow-Origin` header is `https://good.example`. -/
theorem claim_C7_cors_precedence (resp : Response) (u : String) :
    fetchDispatch (c7app resp) c7req u =
      applyCorsHeaders resp (some [("Access-Control-Allow-Origin", "https://good.example")]) ∧
    headersGet (fetchDispatch (c7app resp) c7req u).headers "Access-Control-Allow-Origin" =
      some "https://good.example" := by
  have h1 : fetchDispatch (c7app resp) c7req u =
      applyCorsHeaders resp (some [("Access-Control-Allow-Origin", "https://good.example")]) :=
    rfl
  refine ⟨h1, ?_⟩
  rw [h1]
  simp only [applyCorsHeaders, List.foldl]
  exact headersGet_headersSet resp.headers _ _

/-- `GET /unknown` of claims C8 and C10. -/
def c8req : Request :=
  { method := "GET", url := { pathname := "/unknown" } }

/-- The C8 app: the CORS middleware and an empty route table. -/
def c8app : AppModel :=
  { middlewares := [corsMiddleware goodCors], routes := [] }

/-- C8 fails on the code: the CORS middleware does set
`context.state.corsHeaders`, yet the 404 fallback is returned bare, without
the CORS post-processing that a middleware or handler response receives —
its headers carry no `Access-Control-Allow-Origin` at all. -/
theorem claim_C8_counterexample :
    executeMiddlewares c8app.middlewares (buildContext c8app c8req none) =
      .ok (none, { corsHeaders := some [("Access-Control-Allow-Origin", "https://good.example")],
                   other := [] }) ∧
    fetchDispatch c8app c8req "uuid-1" = notFoundResponse "/unknown" "GET" ∧
    headersGet (notFoundResponse "/unknown" "GET").headers "Access-Control-Allow-Origin" =
      none :=
  ⟨rfl, rfl, by decide⟩

/-- An app with the given global middleware and an empty route table. -/
def c8appM (mws : List Middleware) : AppModel :=
  { middlewares := mws, routes := [] }

/-- C8 amended: CORS post-processing applies only to responses returned by
a short-circuiting middleware or a handler.  Whenever the global middleware
chain continues (with any state, in particular any stored CORS headers) and
no route exists at the path, the dispatcher returns the bare 404 response,
which never carries the stored CORS headers; the 405 early return is
likewise built before any middleware can even store them. -/
theorem claim_C8_cors_not_on_fallback (mws : List Middleware) (st : CtxState) (u : String)
    (hmw : executeMiddlewares mws (buildContext (c8appM mws) c8req none) = .ok (none, st)) :
    fetchDispatch (c8appM mws) c8req u = notFoundResponse "/unknown" "GET" := by
  simp only [c8appM] at hmw ⊢
  have h0 : fetchDispatch { middlewares := mws, routes := [], options := {} } c8req u =
      dispatchMain { middlewares := mws, routes := [], options := {} } c8req none u := rfl
  rw [h0]
  simp only [dispatchMain, runPipeline, hmw]
  simp [buildContext, c8req]

/-- Witness for the amended C8: with the CORS middleware installed (which
stores cors headers and continues), `GET /unknown` still gets the bare 404. -/
theorem claim_C8_cors_not_on_fallback_witness :
    fetchDispatch (c8appM [corsMiddleware goodCors]) c8req "uuid-2" =
      notFoundResponse "/unknown" "GET" :=
  claim_C8_cors_not_on_fallback [corsMiddleware goodCors]
    { corsHeaders := some [("Access-Control-Allow-Origin", "https://good.example")], other := [] }
    "uuid-2" rfl

/-- The C9 app: construction options `o`, one route with a throwing handler. -/
def c9app (o : AppOptions) (e : String) : AppModel :=
  { middlewares := [], routes := [addRoute "GET" "/boom" (throwingHandler e)], options := o }

/-- C9 fails on the code: `AppOptions` (exactly the six optional service
fields `database`, `cache`, `storage`, `queue`, `logger`, `auth`) carries no
error hook, and the caught 500 is the same fixed response for two different
options values — nothing in the configuration can observe the error or
customize the 500. -/
theorem claim_C9_counterexample :
    ({} : AppOptions) ≠ ({ database := some () } : AppOptions) ∧
    fetchDispatch (c9app {} "db password: secret123") c6req "rid-0" =
      internalErrorResponse "rid-0" ∧
    fetchDispatch (c9app { database := some () } "db password: secret123") c6req "rid-0" =
      internalErrorResponse "rid-0" :=
  ⟨by decide, rfl, rfl⟩

/-- C9 amended: there is no error hook in `AppOptions`; for every options
value and every thrown error, the dispatcher returns the fixed generic 500
response, a function of the generated request id alone. -/
theorem claim_C9_no_error_hook (o : AppOptions) (e u : String) :
    fetchDispatch (c9app o e) c6req u = internalErrorResponse u := rfl

/-- The C10 app: arbitrary global middleware and options, one `GET /widgets`
route. -/
def c10app (mws : List Middleware) (o : AppOptions) (h : Handler) : AppModel :=
  { middlewares := mws, routes := [addRoute "GET" "/widgets" h], options := o }

/-- The C10 witness response. -/
def c10resp : Response := { status := 299, body := "M" }

/-- C10: the 405 early return precedes the middleware chain.  For every
global middleware list, `POST /widgets` yields the fixed 405 — the result
does not depend on the middleware at all, so no middleware observes such a
request.  By contrast, on the 404 path the middleware do run first: a
middleware `M` that short-circuits with `rM` makes `GET /unknown` return
`rM` instead of the 404. -/
theorem claim_C10_405_before_middleware (mws : List Middleware) (o : AppOptions)
    (h : Handler) (u : String) (M : Middleware) (rM : Response)
    (hM : ∀ ctx, M ctx = .ok (some rM, ctx.state)) :
    fetchDispatch (c10app mws o h) postWidgetsReq u = methodNotAllowedResponse ["GET"] ∧
    fetchDispatch (c10app [M] o h) getUnknownReq u = rM := by
  constructor
  · rfl
  · have h0 : fetchDispatch (c10app [M] o h) getUnknownReq u =
        dispatchMain (c10app [M] o h) getUnknownReq none u := rfl
    rw [h0]
    simp only [dispatchMain, runPipeline, c10app, executeMiddlewares, hM]
    simp [buildContext, applyCorsHeaders]

/-- Witness middleware for C10: short-circuits with `c10resp`. -/
def c10wM : Middleware := fun ctx => .ok (some c10resp, ctx.state)

/-- Witness for C10: with the short-circuiting middleware installed,
`POST /widgets` still gets the fixed 405 (the middleware never runs), while
`GET /unknown` gets the middleware response. -/
theorem claim_C10_405_before_middleware_witness :
    fetchDispatch (c10app [c10wM] {} okHandler) postWidgetsReq "u1" =
      methodNotAllowedResponse ["GET"] ∧
    fetchDispatch (c10app [c10wM] {} okHandler) getUnknownReq "u1" = c10resp :=
  claim_C10_405_before_middleware [c10wM] {} okHandler "u1" c10wM c10resp (fun _ => rfl)

/-- Witness for C1 at a concrete handler and uuid. -/
theorem claim_C1_param_extraction_witness :
    parseRoutePattern "/posts/:slug/comments/:commentId" =
      { pattern := "^/posts/:slug/comments/:commentId$", paramNames := [], isWildcard := false } ∧
    findRoute [c1route okHandler] "GET" "/posts/hello-world/comments/42" = none ∧
    fetchDispatch (c1app okHandler) c1req "w-uuid" =
      notFoundResponse "/posts/hello-world/comments/42" "GET" :=
  claim_C1_param_extraction okHandler "w-uuid"

/-- Witness for C3 at concrete handlers. -/
theorem claim_C3_literal_precedence_witness :
    findRoute [c3param okHandler, c3lit okHandler] "GET" "/users/me" =
      some ⟨c3lit okHandler, []⟩ ∧
    findRoute [c3lit okHandler, c3param okHandler] "GET" "/users/me" =
      some ⟨c3lit okHandler, []⟩ :=
  claim_C3_literal_precedence okHandler okHandler

/-- The handler response of the C7 witness, carrying a hostile
`Access-Control-Allow-Origin` header. -/
def evilResp : Response :=
  { status := 200, statusText := "",
    headers := [("Access-Control-Allow-Origin", "https://evil.example")], body := "" }

/-- Witness for C7: the handler sets `Access-Control-Allow-Origin` to
`https://evil.example`, and the final header is still the configured
`https://good.example`. -/
theorem claim_C7_cors_precedence_witness :
    fetchDispatch (c7app evilResp) c7req "u2" =
      applyCorsHeaders evilResp
        (some [("Access-Control-Allow-Origin", "https://good.example")]) ∧
    headersGet (fetchDispatch (c7app evilResp) c7req "u2").headers
        "Access-Control-Allow-Origin" = some "https://good.example" :=
  claim_C7_cors_precedence evilResp "u2"

/-- Witness for the amended C9 at concrete options, error and uuid. -/
theorem claim_C9_no_error_hook_witness :
    fetchDispatch (c9app {} "boom") c6req "rid-9" = internalErrorResponse "rid-9" :=
  claim_C9_no_error_hook {} "boom" "rid-9"
